import Mathlib

/-!
Shallow embedding of `rocket-okapi/src/request/from_data_impls.rs`: the
request-body resolver.  Each Rust `impl OpenApiFromData for T` block is one
Lean definition; the trait-polymorphic wrapper impls (`Option<T>`,
`StdResult<T, T::Error>`) become the recursive dispatcher `request_body`
over the inductive `Extractor` of all extractor types implemented in that
file.  The external schema-generation context (`OpenApiGenerator`, whose
`json_schema` method is infallible in the source: schemars returns a
`SchemaObject` directly) is modelled as a state-threading structure with an
arbitrary state type and an arbitrary schema-production function, so the
theorems quantify over every possible context state and generator
behaviour.
-/

namespace Okapi

/-- The payload types the source file passes to `gen.json_schema::<T>()`:
`String` (for `String`, `Capped<String>`), `str` (for `&str`, `Cow<str>`
and their capped variants), `Vec<u8>` (for all byte-oriented extractors),
and a user-supplied type parameter `t : τ` (for `Form<T>`, `Json<T>`,
`MsgPack<T>`). -/
inductive SchemaTy (τ : Type) where
  | string
  | str
  | vecU8
  | user (t : τ)
deriving DecidableEq

/-- Error type of `crate::Result` (`OpenApiError`); opaque to this file,
none of the impls ever constructs one. -/
structure OpenApiError where
  msg : String
deriving DecidableEq

/-- Rust `okapi::openapi3::MediaType`: a schema binding.  The source only ever
sets the `schema` field; all other OpenAPI fields (`example`, `encoding`,
extensions) are left at `MediaType::default()` and are therefore omitted. -/
structure MediaType (Sch : Type) where
  schema : Option Sch := none
deriving DecidableEq

/-- Rust `okapi::Map` (a `BTreeMap` keyed by MIME-type strings), modelled as a
key-sorted association list. -/
abbrev Map (α : Type) : Type := List (String × α)

/-- Empty map, `Map::new()`. -/
def Map.new {α : Type} : Map α := []

/-- Rust `BTreeMap::insert`: ordered insert, replacing an existing binding. -/
def Map.insert {α : Type} : Map α → String → α → Map α
  | [], k, v => [(k, v)]
  | (k₂, v₂) :: rest, k, v =>
    if k < k₂ then (k, v) :: (k₂, v₂) :: rest
    else if k = k₂ then (k, v) :: rest
    else (k₂, v₂) :: Map.insert rest k v

/-- Rust `okapi::openapi3::RequestBody`; the defaults are those of
`RequestBody::default()` (empty description, empty content, not
required). -/
structure RequestBody (Sch : Type) where
  description : Option String := none
  content : Map (MediaType Sch) := Map.new
  required : Bool := false
deriving DecidableEq

/-- The schema-generation context `OpenApiGenerator`: a mutable state
(abstract type `σ`) together with the behaviour of the schema generator,
an arbitrary function producing a schema (abstract type `Sch`) for a
requested payload type and the updated state.  `json_schema` is total:
in the source, `gen.json_schema::<T>()` returns a `SchemaObject` directly
(schemars schema generation is infallible). -/
structure OpenApiGenerator (σ Sch τ : Type) where
  state : σ
  gen_schema : σ → SchemaTy τ → Sch × σ

/-- Method `gen.json_schema::<T>()`: produce the schema for `T`, mutating the
generator state (the side effect of registering new schema definitions). -/
def OpenApiGenerator.json_schema {σ Sch τ : Type}
    (g : OpenApiGenerator σ Sch τ) (ty : SchemaTy τ) :
    Sch × OpenApiGenerator σ Sch τ :=
  let r := g.gen_schema g.state ty
  (r.1, { g with state := r.2 })

/-- The result type of every `request_body` call: `crate::Result<RequestBody>`,
with the mutated generator threaded through (it is `&mut` in Rust). -/
abbrev ResolveResult (σ Sch τ : Type) : Type :=
  Except OpenApiError (RequestBody Sch × OpenApiGenerator σ Sch τ)

/-- Constant `DEFAULT_MIME_TYPE: &str = "application/octet-stream";` -/
def DEFAULT_MIME_TYPE : String := "application/octet-stream"

/-- Function `get_mime_type` from the source, `fn get_mime_type<'a>(mime_type: Option<&'a str>, def: &'static str) -> &'a str`. -/
def get_mime_type (mime_type : Option String) (d : String) : String :=
  match mime_type with
  | some t => t
  | none => d

/-- The `fn_request_body!` macro: generate the schema for the payload type,
then build a `RequestBody` whose content map holds the single entry
`mime_type ↦ MediaType { schema: Some(schema) }`, with `required: true`
and every other field at its default. -/
def fn_request_body {σ Sch τ : Type} (g : OpenApiGenerator σ Sch τ)
    (ty : SchemaTy τ) (mime_type : String) : ResolveResult σ Sch τ :=
  let r := g.json_schema ty
  Except.ok
    ({ content := Map.insert Map.new mime_type { schema := some r.1 },
       required := true }, r.2)

variable {σ Sch τ : Type}

/-- Impl block `impl OpenApiFromData for String`. -/
def string_request_body (g : OpenApiGenerator σ Sch τ) (mime_type : Option String) :
    ResolveResult σ Sch τ :=
  fn_request_body g SchemaTy.string (get_mime_type mime_type DEFAULT_MIME_TYPE)

/-- Impl block `impl OpenApiFromData for &str`. -/
def str_request_body (g : OpenApiGenerator σ Sch τ) (mime_type : Option String) :
    ResolveResult σ Sch τ :=
  fn_request_body g SchemaTy.str (get_mime_type mime_type DEFAULT_MIME_TYPE)

/-- Impl block `impl OpenApiFromData for Cow<str>`. -/
def cowStr_request_body (g : OpenApiGenerator σ Sch τ) (mime_type : Option String) :
    ResolveResult σ Sch τ :=
  fn_request_body g SchemaTy.str (get_mime_type mime_type DEFAULT_MIME_TYPE)

/-- Impl block `impl OpenApiFromData for Vec<u8>`. -/
def vecU8_request_body (g : OpenApiGenerator σ Sch τ) (mime_type : Option String) :
    ResolveResult σ Sch τ :=
  fn_request_body g SchemaTy.vecU8 (get_mime_type mime_type DEFAULT_MIME_TYPE)

/-- Impl block `impl OpenApiFromData for &[u8]`: delegates to `Vec::<u8>::request_body`. -/
def sliceU8_request_body (g : OpenApiGenerator σ Sch τ) (mime_type : Option String) :
    ResolveResult σ Sch τ :=
  vecU8_request_body g mime_type

/-- Impl block `impl OpenApiFromData for TempFile`: delegates to `Vec::<u8>::request_body`
(waiting for schemars issue 103). -/
def tempFile_request_body (g : OpenApiGenerator σ Sch τ) (mime_type : Option String) :
    ResolveResult σ Sch τ :=
  vecU8_request_body g mime_type

/-- Impl block `impl OpenApiFromData for Capped<TempFile>`: delegates to
`TempFile::request_body`. -/
def cappedTempFile_request_body (g : OpenApiGenerator σ Sch τ) (mime_type : Option String) :
    ResolveResult σ Sch τ :=
  tempFile_request_body g mime_type

/-- Impl block `impl OpenApiFromData for Capped<Cow<str>>`. -/
def cappedCowStr_request_body (g : OpenApiGenerator σ Sch τ) (mime_type : Option String) :
    ResolveResult σ Sch τ :=
  fn_request_body g SchemaTy.str (get_mime_type mime_type DEFAULT_MIME_TYPE)

/-- Impl block `impl OpenApiFromData for Capped<&str>`. -/
def cappedStr_request_body (g : OpenApiGenerator σ Sch τ) (mime_type : Option String) :
    ResolveResult σ Sch τ :=
  fn_request_body g SchemaTy.str (get_mime_type mime_type DEFAULT_MIME_TYPE)

/-- Impl block `impl OpenApiFromData for &RawStr`: delegates to
`Vec::<u8>::request_body` (see schemars issue 103: `RawStr` has no
`JsonSchema` impl, so the byte-blob rule is used). -/
def rawStr_request_body (g : OpenApiGenerator σ Sch τ) (mime_type : Option String) :
    ResolveResult σ Sch τ :=
  vecU8_request_body g mime_type

/-- Impl block `impl OpenApiFromData for Capped<&RawStr>`: delegates to
`<&RawStr>::request_body`. -/
def cappedRawStr_request_body (g : OpenApiGenerator σ Sch τ) (mime_type : Option String) :
    ResolveResult σ Sch τ :=
  rawStr_request_body g mime_type

/-- Impl block `impl OpenApiFromData for Capped<&[u8]>`: delegates to
`Vec::<u8>::request_body`. -/
def cappedSliceU8_request_body (g : OpenApiGenerator σ Sch τ) (mime_type : Option String) :
    ResolveResult σ Sch τ :=
  vecU8_request_body g mime_type

/-- Impl block `impl OpenApiFromData for Capped<String>`: delegates to
`String::request_body`. -/
def cappedString_request_body (g : OpenApiGenerator σ Sch τ) (mime_type : Option String) :
    ResolveResult σ Sch τ :=
  string_request_body g mime_type

/-- Impl block `impl OpenApiFromData for Capped<Vec<u8>>`: delegates to
`Vec::<u8>::request_body`. -/
def cappedVecU8_request_body (g : OpenApiGenerator σ Sch τ) (mime_type : Option String) :
    ResolveResult σ Sch τ :=
  vecU8_request_body g mime_type

/-- Impl block `impl OpenApiFromData for Data`: delegates to `Vec::<u8>::request_body`. -/
def data_request_body (g : OpenApiGenerator σ Sch τ) (mime_type : Option String) :
    ResolveResult σ Sch τ :=
  vecU8_request_body g mime_type

/-- Impl block `impl OpenApiFromData for Form<T>`: the schema of `T` under the default
MIME policy. -/
def form_request_body (t : τ) (g : OpenApiGenerator σ Sch τ) (mime_type : Option String) :
    ResolveResult σ Sch τ :=
  fn_request_body g (SchemaTy.user t) (get_mime_type mime_type DEFAULT_MIME_TYPE)

/-- Impl block `impl OpenApiFromData for Json<T>`: the override argument is ignored
(`_mime_type`), the MIME type is hard-coded. -/
def json_request_body (t : τ) (g : OpenApiGenerator σ Sch τ) (_mime_type : Option String) :
    ResolveResult σ Sch τ :=
  fn_request_body g (SchemaTy.user t) "application/json"

/-- Impl block `impl OpenApiFromData for MsgPack<T>` (msgpack feature): the override
argument is ignored, the MIME type is hard-coded. -/
def msgPack_request_body (t : τ) (g : OpenApiGenerator σ Sch τ) (_mime_type : Option String) :
    ResolveResult σ Sch τ :=
  fn_request_body g (SchemaTy.user t) "application/msgpack"

/-- The extractor types for which `from_data_impls.rs` implements
`OpenApiFromData`, one constructor per `impl` block.  `result` is
`StdResult<T, T::Error>` (the error type is fixed by `T` and never
inspected, so it carries no data here) and `option` is `Option<T>`;
`form`, `json`, `msgPack` carry the user payload type parameter. -/
inductive Extractor (τ : Type) where
  | string
  | str
  | cowStr
  | vecU8
  | sliceU8
  | result (inner : Extractor τ)
  | option (inner : Extractor τ)
  | tempFile
  | cappedTempFile
  | cappedCowStr
  | cappedStr
  | cappedRawStr
  | cappedSliceU8
  | cappedString
  | cappedVecU8
  | rawStr
  | data
  | form (t : τ)
  | json (t : τ)
  | msgPack (t : τ)

/-- The trait dispatch `T::request_body(gen, mime_type)`.  The wrapper impls
are the two recursive cases: `StdResult<T, T::Error>` delegates with no
patch; `Option<T>` delegates and forces `required: false` (the `?` operator
propagates an inner error unchanged, here the explicit `error` branch). -/
def request_body : Extractor τ → OpenApiGenerator σ Sch τ → Option String →
    ResolveResult σ Sch τ
  | Extractor.string, g, m => string_request_body g m
  | Extractor.str, g, m => str_request_body g m
  | Extractor.cowStr, g, m => cowStr_request_body g m
  | Extractor.vecU8, g, m => vecU8_request_body g m
  | Extractor.sliceU8, g, m => sliceU8_request_body g m
  | Extractor.result inner, g, m => request_body inner g m
  | Extractor.option inner, g, m =>
    match request_body inner g m with
    | Except.ok p => Except.ok ({ p.1 with required := false }, p.2)
    | Except.error err => Except.error err
  | Extractor.tempFile, g, m => tempFile_request_body g m
  | Extractor.cappedTempFile, g, m => cappedTempFile_request_body g m
  | Extractor.cappedCowStr, g, m => cappedCowStr_request_body g m
  | Extractor.cappedStr, g, m => cappedStr_request_body g m
  | Extractor.cappedRawStr, g, m => cappedRawStr_request_body g m
  | Extractor.cappedSliceU8, g, m => cappedSliceU8_request_body g m
  | Extractor.cappedString, g, m => cappedString_request_body g m
  | Extractor.cappedVecU8, g, m => cappedVecU8_request_body g m
  | Extractor.rawStr, g, m => rawStr_request_body g m
  | Extractor.data, g, m => data_request_body g m
  | Extractor.form t, g, m => form_request_body t g m
  | Extractor.json t, g, m => json_request_body t g m
  | Extractor.msgPack t, g, m => msgPack_request_body t g m

/-- The textual and binary extractors: every implemented extractor that
resolves through the default MIME policy (`get_mime_type` with
`DEFAULT_MIME_TYPE`), i.e. every leaf or capped/stream/file variant that is
not a `Form`/`Json`/`MsgPack` payload carrier and not an
`Option`/`Result` wrapper. -/
def Extractor.isTextualOrBinary : Extractor τ → Bool
  | .string | .str | .cowStr | .vecU8 | .sliceU8 | .tempFile | .cappedTempFile
  | .cappedCowStr | .cappedStr | .cappedRawStr | .cappedSliceU8
  | .cappedString | .cappedVecU8 | .rawStr | .data => true
  | _ => false

/-- A concrete sample generator for witnesses: the schema produced for a
payload type is the type tag itself, the state is trivial. -/
def sampleGen : OpenApiGenerator Unit (SchemaTy Unit) Unit :=
  { state := (), gen_schema := fun s ty => (ty, s) }

/-- A concrete generator that, like schemars, produces for `str` the very
schema it produces for `String` (schemars forwards the `JsonSchema` impl of
`str` to `String`). -/
def fwdGen : OpenApiGenerator Unit (SchemaTy Unit) Unit :=
  { state := (),
    gen_schema := fun s ty =>
      (match ty with
       | SchemaTy.str => SchemaTy.string
       | x => x, s) }

/-- Projection used to compare resolution results on their `RequestBody`
component only (the generator component holds a function and has no
decidable equality). -/
def resolvedBody (r : ResolveResult σ Sch τ) : Option (RequestBody Sch) :=
  match r with
  | Except.ok p => some p.1
  | Except.error _ => none


/-- Shape lemma: every implemented extractor resolves, for every generator
state and every override, to `Except.ok` of a `RequestBody` with an empty
description, exactly one content entry whose `MediaType` carries a present
schema, and some required flag. -/
theorem request_body_shape (e : Extractor τ) (g : OpenApiGenerator σ Sch τ)
    (m : Option String) :
    ∃ k sch b g₂, request_body e g m =
      Except.ok ({ description := none,
                   content := [(k, { schema := some sch })],
                   required := b }, g₂) := by
  induction e with
  | result inner ih => simpa [request_body] using ih
  | option inner ih =>
    obtain ⟨k, sch, b, g₂, h⟩ := ih
    exact ⟨k, sch, false, g₂, by simp [request_body, h]⟩
  | string => exact ⟨_, _, _, _, rfl⟩
  | str => exact ⟨_, _, _, _, rfl⟩
  | cowStr => exact ⟨_, _, _, _, rfl⟩
  | vecU8 => exact ⟨_, _, _, _, rfl⟩
  | sliceU8 => exact ⟨_, _, _, _, rfl⟩
  | tempFile => exact ⟨_, _, _, _, rfl⟩
  | cappedTempFile => exact ⟨_, _, _, _, rfl⟩
  | cappedCowStr => exact ⟨_, _, _, _, rfl⟩
  | cappedStr => exact ⟨_, _, _, _, rfl⟩
  | cappedRawStr => exact ⟨_, _, _, _, rfl⟩
  | cappedSliceU8 => exact ⟨_, _, _, _, rfl⟩
  | cappedString => exact ⟨_, _, _, _, rfl⟩
  | cappedVecU8 => exact ⟨_, _, _, _, rfl⟩
  | rawStr => exact ⟨_, _, _, _, rfl⟩
  | data => exact ⟨_, _, _, _, rfl⟩
  | form t => exact ⟨_, _, _, _, rfl⟩
  | json t => exact ⟨_, _, _, _, rfl⟩
  | msgPack t => exact ⟨_, _, _, _, rfl⟩

/-- Claim C1: for every extractor type with a resolution rule, a successful
`request_body` call returns a `RequestBody` whose content map has exactly
one entry, and that entry's `MediaType` carries a present (`some`) schema;
in particular the content map is never empty on success. -/
theorem request_body_content_singleton (e : Extractor τ)
    (g : OpenApiGenerator σ Sch τ) (m : Option String)
    (rb : RequestBody Sch) (g₂ : OpenApiGenerator σ Sch τ)
    (h : request_body e g m = Except.ok (rb, g₂)) :
    ∃ k mt, rb.content = [(k, mt)] ∧ mt.schema.isSome := by
  obtain ⟨k, sch, b, g₃, hs⟩ := request_body_shape e g m
  rw [h] at hs
  simp only [Except.ok.injEq, Prod.mk.injEq] at hs
  exact ⟨k, { schema := some sch }, by rw [hs.1], rfl⟩

/-- Witness for C1: the byte-blob extractor with no override and the sample
generator. -/
theorem request_body_content_singleton_witness :
    ∃ k mt,
      ({ description := none,
         content := [("application/octet-stream",
         { schema := some SchemaTy.vecU8 })],
         required := true } : RequestBody (SchemaTy Unit)).content = [(k, mt)]
      ∧ mt.schema.isSome :=
  request_body_content_singleton (τ := Unit) Extractor.vecU8 sampleGen none
    _ sampleGen rfl

/-- Claim C2: every textual or binary extractor resolves its single content
key to the override string when one is supplied and to
`application/octet-stream` when it is `none`; in both cases `required` is
`true`, and the schema (and final generator state) is the same in both
cases, so the override does not change the schema. -/
theorem default_mime_policy (e : Extractor τ) (h : e.isTextualOrBinary = true)
    (g : OpenApiGenerator σ Sch τ) (o : String) :
    ∃ sch g₂,
      request_body e g (some o) =
        Except.ok ({ description := none,
                     content := [(o, { schema := some sch })], required := true }, g₂)
      ∧ request_body e g none =
        Except.ok ({ description := none,
                     content := [("application/octet-stream", { schema := some sch })],
                     required := true }, g₂) := by
  cases e <;> simp only [Extractor.isTextualOrBinary] at h <;>
    first
      | exact absurd h (by decide)
      | exact ⟨_, _, rfl, rfl⟩

/-- Witness for C2: the byte-blob extractor with override string
`image/png` and the sample generator. -/
theorem default_mime_policy_witness :
    (Extractor.isTextualOrBinary (Extractor.vecU8 (τ := Unit)) = true) ∧
    ∃ sch g₂,
      request_body (Extractor.vecU8 (τ := Unit)) sampleGen (some "image/png") =
        Except.ok ({ description := none,
                     content := [("image/png", { schema := some sch })],
                     required := true }, g₂)
      ∧ request_body (Extractor.vecU8 (τ := Unit)) sampleGen none =
        Except.ok ({ description := none,
                     content := [("application/octet-stream", { schema := some sch })],
                     required := true }, g₂) :=
  ⟨rfl, default_mime_policy Extractor.vecU8 rfl sampleGen "image/png"⟩

/-- Claim C3: `Json<T>` always resolves to the single content key
`application/json` and `MsgPack<T>` to `application/msgpack`; the
right-hand sides do not mention the override argument `m`, so the override
has no effect on either result. -/
theorem fixed_format_mime (t : τ) (g : OpenApiGenerator σ Sch τ)
    (m : Option String) :
    request_body (Extractor.json t) g m =
      Except.ok ({ description := none,
                   content := [("application/json",
                   { schema := some (g.json_schema (SchemaTy.user t)).1 })],
                   required := true }, (g.json_schema (SchemaTy.user t)).2)
    ∧ request_body (Extractor.msgPack t) g m =
      Except.ok ({ description := none,
                   content := [("application/msgpack",
                   { schema := some (g.json_schema (SchemaTy.user t)).1 })],
                   required := true }, (g.json_schema (SchemaTy.user t)).2) :=
  ⟨rfl, rfl⟩

/-- Claim C4: the byte-oriented extractors `&[u8]`, `Capped<&[u8]>`,
`Capped<Vec<u8>>`, `Data`, `TempFile` and `Capped<TempFile>` all resolve,
for every generator state and every override, to exactly the result of the
`Vec<u8>` rule (same MIME key, same schema, same required flag). -/
theorem byte_extractors_identical (g : OpenApiGenerator σ Sch τ)
    (m : Option String) :
    request_body Extractor.sliceU8 g m = request_body Extractor.vecU8 g m ∧
    request_body Extractor.cappedSliceU8 g m = request_body Extractor.vecU8 g m ∧
    request_body Extractor.cappedVecU8 g m = request_body Extractor.vecU8 g m ∧
    request_body Extractor.data g m = request_body Extractor.vecU8 g m ∧
    request_body Extractor.tempFile g m = request_body Extractor.vecU8 g m ∧
    request_body Extractor.cappedTempFile g m = request_body Extractor.vecU8 g m :=
  ⟨rfl, rfl, rfl, rfl, rfl, rfl⟩

/-- Claim C5: under the schema generator's actual behaviour that the schema
produced for `str` is the schema produced for `String` (schemars forwards
the `JsonSchema` impl of `str` to `String`), the six textual extractors
`String`, `&str`, `Cow<str>`, `Capped<String>`, `Capped<&str>` and
`Capped<Cow<str>>` all resolve to identical results, and the textual rule
replaces the default MIME type by the override when one is supplied. -/
theorem textual_extractors_identical (g : OpenApiGenerator σ Sch τ)
    (m : Option String)
    (hfwd : ∀ s, g.gen_schema s SchemaTy.str = g.gen_schema s SchemaTy.string) :
    (request_body Extractor.str g m = request_body Extractor.string g m ∧
     request_body Extractor.cowStr g m = request_body Extractor.string g m ∧
     request_body Extractor.cappedString g m = request_body Extractor.string g m ∧
     request_body Extractor.cappedStr g m = request_body Extractor.string g m ∧
     request_body Extractor.cappedCowStr g m = request_body Extractor.string g m) ∧
    ∀ o : String, ∃ mt g₂,
      request_body Extractor.string g (some o) =
        Except.ok ({ description := none, content := [(o, mt)],
                     required := true }, g₂) := by
  have heq : ∀ k, fn_request_body g SchemaTy.str k
      = fn_request_body g SchemaTy.string k := by
    intro k
    simp [fn_request_body, OpenApiGenerator.json_schema, hfwd]
  exact ⟨⟨heq _, heq _, rfl, heq _, heq _⟩, fun o => ⟨_, _, rfl⟩⟩

/-- Witness for C5: the forwarding generator `fwdGen` with no override. -/
theorem textual_extractors_identical_witness :
    (∀ s : Unit, fwdGen.gen_schema s SchemaTy.str
      = fwdGen.gen_schema s SchemaTy.string) ∧
    ((request_body (Extractor.str (τ := Unit)) fwdGen none
        = request_body Extractor.string fwdGen none ∧
      request_body (Extractor.cowStr (τ := Unit)) fwdGen none
        = request_body Extractor.string fwdGen none ∧
      request_body (Extractor.cappedString (τ := Unit)) fwdGen none
        = request_body Extractor.string fwdGen none ∧
      request_body (Extractor.cappedStr (τ := Unit)) fwdGen none
        = request_body Extractor.string fwdGen none ∧
      request_body (Extractor.cappedCowStr (τ := Unit)) fwdGen none
        = request_body Extractor.string fwdGen none) ∧
     ∀ o : String, ∃ mt g₂,
       request_body (Extractor.string (τ := Unit)) fwdGen (some o) =
         Except.ok ({ description := none, content := [(o, mt)],
                      required := true }, g₂)) :=
  ⟨fun _ => rfl, textual_extractors_identical fwdGen none fun _ => rfl⟩

/-- Counterexample to claim C6 as stated: with the sample generator (which
produces distinct schemas for distinct payload types), the raw-string
extractor `&RawStr` resolves to exactly the byte-blob result — its schema
is the `Vec<u8>` schema, not the unstructured-string schema the `&str`
rule produces. -/
theorem rawstr_schema_counterexample :
    resolvedBody (request_body (Extractor.rawStr (τ := Unit)) sampleGen none) =
      resolvedBody (request_body Extractor.vecU8 sampleGen none) ∧
    resolvedBody (request_body (Extractor.rawStr (τ := Unit)) sampleGen none) ≠
      resolvedBody (request_body Extractor.str sampleGen none) :=
  ⟨rfl, by decide⟩

/-- Claim C6 as amended: the raw-string extractor `&RawStr` and its capped
variant resolve through the default MIME policy (override if present, else
`application/octet-stream`) to the byte-blob schema, delegating to the
`Vec<u8>` rule (a workaround: `RawStr` has no `JsonSchema` impl, see
schemars issue 103). -/
theorem rawstr_resolution (g : OpenApiGenerator σ Sch τ) (m : Option String) :
    request_body Extractor.rawStr g m = request_body Extractor.vecU8 g m ∧
    request_body Extractor.cappedRawStr g m = request_body Extractor.rawStr g m ∧
    ∃ sch g₂,
      request_body Extractor.rawStr g m =
        Except.ok ({ description := none,
                     content := [(get_mime_type m DEFAULT_MIME_TYPE,
                     { schema := some sch })],
                     required := true }, g₂) :=
  ⟨rfl, rfl, _, _, rfl⟩

/-- Claim C7: resolving `Option<T>` is exactly resolving `T` and, on
success, forcing `required := false` while leaving the content map, the
generator and every other field unchanged; it fails exactly when `T`'s own
resolution fails, with the same error. -/
theorem option_wrapper (e : Extractor τ) (g : OpenApiGenerator σ Sch τ)
    (m : Option String) :
    request_body (Extractor.option e) g m =
      (request_body e g m).map fun p => ({ p.1 with required := false }, p.2) := by
  cases h : request_body e g m <;> simp [request_body, h, Except.map]

/-- Claim C8: resolving `StdResult<T, T::Error>` returns exactly the same
result as resolving `T` directly, for every generator state and override
(the error type is fixed by `T` and never inspected by the rule). -/
theorem result_wrapper (e : Extractor τ) (g : OpenApiGenerator σ Sch τ)
    (m : Option String) :
    request_body (Extractor.result e) g m = request_body e g m := rfl

/-- Claim C9: `Form<U>` resolves to a single content entry keyed by the
default MIME policy — the override if supplied, else
`application/octet-stream` (not a form-specific content type) — whose
schema is the schema generated for `U`, with `required` true. -/
theorem form_resolution (t : τ) (g : OpenApiGenerator σ Sch τ)
    (m : Option String) :
    request_body (Extractor.form t) g m =
      Except.ok ({ description := none,
                   content := [(get_mime_type m DEFAULT_MIME_TYPE,
                   { schema := some (g.json_schema (SchemaTy.user t)).1 })],
                   required := true }, (g.json_schema (SchemaTy.user t)).2) ∧
    get_mime_type none DEFAULT_MIME_TYPE = "application/octet-stream" :=
  ⟨rfl, rfl⟩

/-- Claim C10: for every implemented extractor, every generator state and
every override, `request_body` returns `Except.ok`; the error branch is
unreachable because the leaf schema-generation call is infallible and
every wrapper delegates to an implemented rule. -/
theorem request_body_total (e : Extractor τ) (g : OpenApiGenerator σ Sch τ)
    (m : Option String) :
    ∃ rb g₂, request_body e g m = Except.ok (rb, g₂) := by
  obtain ⟨k, sch, b, g₂, h⟩ := request_body_shape e g m
  exact ⟨_, _, h⟩

end Okapi
